import Mathlib

/-!
Shallow embedding of `src/Editor/BlenderScripts/apply_costume.py`
(AvatarCostumeAutoAdjustTool).

The script imports an avatar FBX and a costume FBX, loads a bone-mapping
file and a settings file, renames costume bones and vertex groups through
the mapping, optionally applies a global scale, reparents the costume
meshes to the avatar armature, zeroes their locations, deletes the costume
armature, and exports the avatar armature together with the costume meshes.

Objects are modelled with the fields the script reads or writes; weights
are rationals (the script never performs arithmetic on them, it only
renames the groups that carry them).
-/

namespace AvatarCostume

/-- A 3-component vector (translation / rotation / scale components). -/
structure Vec3 where
  x : ℚ
  y : ℚ
  z : ℚ
deriving DecidableEq, Repr

/-- A local bind transform as carried by a bone. The script never touches
these fields; they are modelled so that this fact is provable. -/
structure Transform where
  translation : Vec3
  rotation : Vec3
  scale : Vec3
deriving DecidableEq, Repr

/-- A bone of an armature: `bone.name` is read and written by the rename
loop (line 138-142); parent and transform are never touched. -/
structure Bone where
  name : String
  parent : Option String
  transform : Transform
deriving DecidableEq, Repr

/-- An armature object: `data.bones` plus the object-level `scale`
written at line 146. -/
structure Armature where
  name : String
  bones : List Bone
  scale : Vec3
deriving DecidableEq, Repr

/-- A vertex group: a name and the per-vertex weights it carries
(vertex index, weight). Renaming a group (line 166) does not touch its
weights. -/
structure VGroup where
  name : String
  weights : List (Nat × ℚ)
deriving DecidableEq, Repr

/-- A mesh modifier: the script looks only at `type` (is it `ARMATURE`)
and rewrites `object` to the avatar armature (line 154-157). -/
structure Modifier where
  type : String
  object : String
deriving DecidableEq, Repr

/-- A mesh object with the fields the script reads or writes. -/
structure MeshObj where
  name : String
  modifiers : List Modifier
  vertex_groups : List VGroup
  parent : Option String
  location : Vec3
  scale : Vec3
deriving DecidableEq, Repr

/-- An imported scene object, as the script classifies them by
`obj.type` (lines 57-60, 83-87). -/
inductive BObject where
  | armature (a : Armature)
  | mesh (m : MeshObj)
deriving DecidableEq, Repr

/-- A raw record of `mapping_data['boneMapping']`; either field may be
missing (line 112 checks both keys). -/
structure MappingEntry where
  costumeBoneId : Option String
  avatarBoneId : Option String
deriving DecidableEq, Repr

/-- The settings JSON: every key optional, defaults applied at
lines 118-123. -/
structure SettingsFile where
  globalScale : Option ℚ
  detectStructuralDifferences : Option Bool
  adjustScale : Option Bool
  adjustRotation : Option Bool
  adjustBindPoses : Option Bool
  redistributeWeights : Option Bool
deriving DecidableEq, Repr

/-- The extracted settings (lines 118-123). -/
structure RetargetSettings where
  global_scale : ℚ
  detect_structural_differences : Bool
  adjust_scale : Bool
  adjust_rotation : Bool
  adjust_bind_poses : Bool
  redistribute_weights : Bool
deriving DecidableEq, Repr

/-- Lines 118-123: `settings.get(key, default)`. -/
def extract_settings (s : SettingsFile) : RetargetSettings :=
  { global_scale := s.globalScale.getD 1
  , detect_structural_differences := s.detectStructuralDifferences.getD true
  , adjust_scale := s.adjustScale.getD true
  , adjust_rotation := s.adjustRotation.getD true
  , adjust_bind_poses := s.adjustBindPoses.getD true
  , redistribute_weights := s.redistributeWeights.getD true }

/-- Python-dict insertion: overwrite the value of an existing key in
place, otherwise append. -/
def assoc_insert (l : List (String × String)) (k v : String) :
    List (String × String) :=
  match l with
  | [] => [(k, v)]
  | (k0, v0) :: rest =>
      if k0 = k then (k0, v) :: rest else (k0, v0) :: assoc_insert rest k v

/-- Lines 109-113: build `bone_mapping[costumeBoneId] = avatarBoneId` from
every record that has both keys. -/
def build_bone_mapping (ms : List MappingEntry) : List (String × String) :=
  ms.foldl
    (fun acc e =>
      match e.costumeBoneId, e.avatarBoneId with
      | some c, some a => assoc_insert acc c a
      | _, _ => acc)
    []

/-- The name a bone or vertex group carries after the rename loops: the
mapped avatar name when the current name is a key of `bone_mapping`,
otherwise the name itself. -/
def mapped_name (bm : List (String × String)) (n : String) : String :=
  (List.lookup n bm).getD n

/-- Lines 138-142 applied to one bone: rename when the name is a key. -/
def rename_bone (bm : List (String × String)) (b : Bone) : Bone :=
  match List.lookup b.name bm with
  | some a => { b with name := a }
  | none => b

/-- Lines 162-167 applied to one vertex group. -/
def rename_vgroup (bm : List (String × String)) (g : VGroup) : VGroup :=
  match List.lookup g.name bm with
  | some a => { g with name := a }
  | none => g

/-- Lines 145-146 and 175-176: `if adjust_scale and global_scale != 1.0`,
set the object scale to the uniform global scale, otherwise leave it. -/
def apply_global_scale (st : RetargetSettings) (orig : Vec3) : Vec3 :=
  if st.adjust_scale = true ∧ st.global_scale ≠ 1 then
    ⟨st.global_scale, st.global_scale, st.global_scale⟩
  else orig

/-- Lines 134-147: rename costume bones through the mapping and apply the
global scale to the costume armature object. -/
def process_armature (bm : List (String × String)) (st : RetargetSettings)
    (a : Armature) : Armature :=
  { a with
    bones := a.bones.map (rename_bone bm)
  , scale := apply_global_scale st a.scale }

/-- Line 154-157 applied to one modifier (only reached when a costume
armature exists): armature modifiers are retargeted to the avatar
armature. -/
def retarget_modifier (avatar_name : String) (md : Modifier) : Modifier :=
  if md.type = "ARMATURE" then { md with object := avatar_name } else md

/-- Lines 151-177 applied to one costume mesh. `has_costume_armature`
gates the modifier retarget (line 154) and the vertex-group rename
(line 160); `avatar_name` is the avatar armature (always found by this
point). The mesh is parented to the avatar armature (line 172) and the
global scale applied (lines 175-176). -/
def process_mesh (bm : List (String × String)) (st : RetargetSettings)
    (has_costume_armature : Bool) (avatar_name : String) (m : MeshObj) :
    MeshObj :=
  { m with
    modifiers :=
      if has_costume_armature then m.modifiers.map (retarget_modifier avatar_name)
      else m.modifiers
  , vertex_groups :=
      if has_costume_armature then m.vertex_groups.map (rename_vgroup bm)
      else m.vertex_groups
  , parent := some avatar_name
  , scale := apply_global_scale st m.scale }

/-- Lines 57-60: the first armature among the avatar objects (the loop
breaks at the first hit). -/
def find_avatar_armature : List BObject → Option Armature
  | [] => none
  | .armature a :: _ => some a
  | .mesh _ :: rest => find_avatar_armature rest

/-- Lines 83-87: the costume loop does not break, so the last armature
wins. -/
def find_costume_armature (objs : List BObject) : Option Armature :=
  objs.foldl
    (fun acc o =>
      match o with
      | .armature a => some a
      | .mesh _ => acc)
    none

/-- Lines 83-87: the costume meshes, in import order. -/
def costume_meshes_of (objs : List BObject) : List MeshObj :=
  objs.filterMap
    (fun o =>
      match o with
      | .mesh m => some m
      | .armature _ => none)

/-- The fatal `sys.exit(1)` sites of the script. -/
inductive ScriptError where
  | noAvatarObjects
  | noAvatarArmature
  | noCostumeObjects
  | noCostumeContent
deriving DecidableEq, Repr

/-- Lines 151-181 over all costume meshes: per-mesh processing followed by
the unconditional `mesh_obj.location = (0, 0, 0)` loop (lines 180-181). -/
def assemble (bm : List (String × String)) (st : RetargetSettings)
    (has_costume_armature : Bool) (avatar_name : String)
    (meshes : List MeshObj) : List MeshObj :=
  meshes.map
    (fun m =>
      { process_mesh bm st has_costume_armature avatar_name m with
        location := ⟨0, 0, 0⟩ })

/-- The exported result (lines 194, 205-213): the avatar armature plus the
processed costume meshes; the costume armature was removed at
lines 184-186. -/
structure FinalScene where
  avatar_armature : Armature
  meshes : List MeshObj
deriving DecidableEq, Repr

/-- The whole script after import, as a function of the imported object
lists, the mapping records and the settings JSON. Errors are the
`sys.exit(1)` paths; on success the exported scene is returned. The
processed costume armature is dropped because lines 184-186 delete it
before export. -/
def run_script (avatar_objects costume_objects : List BObject)
    (mapping_data : List MappingEntry) (settings : SettingsFile) :
    Except ScriptError FinalScene :=
  if avatar_objects.isEmpty then .error .noAvatarObjects
  else
    match find_avatar_armature avatar_objects with
    | none => .error .noAvatarArmature
    | some avatar_armature =>
      if costume_objects.isEmpty then .error .noCostumeObjects
      else
        if (find_costume_armature costume_objects).isNone
            && (costume_meshes_of costume_objects).isEmpty then
          .error .noCostumeContent
        else
          .ok
            { avatar_armature := avatar_armature
            , meshes :=
                assemble (build_bone_mapping mapping_data)
                  (extract_settings settings)
                  (find_costume_armature costume_objects).isSome
                  avatar_armature.name
                  (costume_meshes_of costume_objects) }

/-- The weight a vertex group assigns to vertex `v` (0 when the vertex is
not in the group). -/
def weight_at (g : VGroup) (v : Nat) : ℚ :=
  (List.lookup v g.weights).getD 0

/-- The total weight mass of vertex `v` over all vertex groups of a
mesh. -/
def vertex_total (m : MeshObj) (v : Nat) : ℚ :=
  (m.vertex_groups.map (fun g => weight_at g v)).sum

/-- The total weight vertex `v` receives from all groups named `bone`
(duplicate names contribute separately). -/
def total_on (m : MeshObj) (bone : String) (v : Nat) : ℚ :=
  ((m.vertex_groups.filter (fun g => g.name = bone)).map
    (fun g => weight_at g v)).sum

/-! ### Concrete fixtures used by witnesses and counterexamples -/

/-- Identity-like transform. -/
def tf0 : Transform := ⟨⟨0, 0, 0⟩, ⟨0, 0, 0⟩, ⟨1, 1, 1⟩⟩

/-- A transform distinct from `tf0`. -/
def tf1 : Transform := ⟨⟨0, 1, 0⟩, ⟨30, 0, 0⟩, ⟨1, 1, 1⟩⟩

/-- Unit object scale. -/
def unit3 : Vec3 := ⟨1, 1, 1⟩

/-- An avatar armature whose only bone is `Hips`. -/
def avatarArm : Armature := ⟨"Avatar", [⟨"Hips", none, tf0⟩], unit3⟩

/-- Avatar import: just the armature. -/
def avatarObjs : List BObject := [.armature avatarArm]

/-- An empty settings file: every option takes its default. -/
def noSettings : SettingsFile := ⟨none, none, none, none, none, none⟩

/-- A costume mesh whose vertex 0 is influenced by `Sleeve` (unmapped)
and by `Hip` (mapped). -/
def dressMesh : MeshObj :=
  ⟨"Dress", [⟨"ARMATURE", "CostumeArm"⟩],
    [⟨"Sleeve", [(0, 1)]⟩, ⟨"Hip", [(0, 1)]⟩], none, ⟨0, 0, 5⟩, unit3⟩

/-- Costume armature with bones `Hip` and its child `Sleeve`. -/
def costumeArm1 : Armature :=
  ⟨"CostumeArm", [⟨"Hip", none, tf0⟩, ⟨"Sleeve", some "Hip", tf0⟩], unit3⟩

/-- Costume import for the dress fixture. -/
def costumeObjs1 : List BObject := [.armature costumeArm1, .mesh dressMesh]

/-- Mapping `Hip → Hips` only; `Sleeve` is unmapped. -/
def mapping1 : List MappingEntry := [⟨some "Hip", some "Hips"⟩]

/-- The dress mesh as the script exports it: armature modifier retargeted,
`Hip` renamed to `Hips`, `Sleeve` untouched, parented to the avatar,
location zeroed. -/
def dressOut : MeshObj :=
  ⟨"Dress", [⟨"ARMATURE", "Avatar"⟩],
    [⟨"Sleeve", [(0, 1)]⟩, ⟨"Hips", [(0, 1)]⟩], some "Avatar", ⟨0, 0, 0⟩,
    unit3⟩

/-- The exported scene of the dress fixture. -/
def scene1 : FinalScene := ⟨avatarArm, [dressOut]⟩

/-- Two costume leg bones, both mapped onto the single avatar bone
`Leg`. -/
def costumeArm2 : Armature :=
  ⟨"CostumeArm2", [⟨"LegUpper", none, tf0⟩, ⟨"LegLower", some "LegUpper", tf0⟩],
    unit3⟩

/-- Vertex 0 weighted 2 by `LegUpper` and 3 by `LegLower`. -/
def pantsMesh : MeshObj :=
  ⟨"Pants", [], [⟨"LegUpper", [(0, 2)]⟩, ⟨"LegLower", [(0, 3)]⟩], none,
    ⟨0, 0, 0⟩, unit3⟩

/-- Costume import for the many-to-one fixture. -/
def costumeObjs2 : List BObject := [.armature costumeArm2, .mesh pantsMesh]

/-- Both leg bones map to `Leg`. -/
def mapping2 : List MappingEntry :=
  [⟨some "LegUpper", some "Leg"⟩, ⟨some "LegLower", some "Leg"⟩]

/-- Costume hierarchy `Hip → Chest → Sleeve` for the ancestor-fallback
fixture. -/
def costumeArm3 : Armature :=
  ⟨"CostumeArm3",
    [⟨"Hip", none, tf0⟩, ⟨"Chest", some "Hip", tf0⟩,
      ⟨"Sleeve", some "Chest", tf0⟩], unit3⟩

/-- A mesh whose only influence is the unmapped `Sleeve`. -/
def cuffMesh : MeshObj :=
  ⟨"Cuff", [], [⟨"Sleeve", [(0, 1)]⟩], none, ⟨0, 0, 0⟩, unit3⟩

/-- Costume import for the ancestor-fallback fixture. -/
def costumeObjs3 : List BObject := [.armature costumeArm3, .mesh cuffMesh]

/-- Mapping `Hip → Hip`, `Chest → Chest`; `Sleeve` unmapped. -/
def mapping3 : List MappingEntry :=
  [⟨some "Hip", some "Hip"⟩, ⟨some "Chest", some "Chest"⟩]

/-- Avatar with bones `Hip` and `Chest` for the ancestor-fallback
fixture. -/
def avatarArm3 : Armature :=
  ⟨"Avatar3", [⟨"Hip", none, tf0⟩, ⟨"Chest", some "Hip", tf0⟩], unit3⟩

/-- Settings file that explicitly turns bind-pose adjustment on. -/
def settingsBind : SettingsFile := ⟨none, none, none, none, some true, none⟩

/-- A costume armature whose bone `CHips` carries the authored transform
`tf1`, different from the avatar `Hips` transform `tf0`. -/
def costumeArm4 : Armature := ⟨"CostumeArm4", [⟨"CHips", none, tf1⟩], unit3⟩

/-- Mapping `CHips → Hips`. -/
def mapping4 : List MappingEntry := [⟨some "CHips", some "Hips"⟩]

/-- A mapping entry whose avatar-side name `Ghost` exists in no avatar
skeleton of the fixtures. -/
def mapping5 : List MappingEntry := [⟨some "A", some "Ghost"⟩]

/-- A costume armature with the single bone `A`. -/
def costumeArm5 : Armature := ⟨"CostumeArm5", [⟨"A", none, tf0⟩], unit3⟩

/-- A costume consisting of a mesh only — no armature at all. -/
def bagMesh : MeshObj :=
  ⟨"Bag", [], [⟨"Strap", [(0, 1)]⟩], none, ⟨0, 0, 0⟩, unit3⟩

/-! ### Helper lemmas -/

theorem rename_bone_name (bm : List (String × String)) (b : Bone) :
    (rename_bone bm b).name = mapped_name bm b.name := by
  cases h : List.lookup b.name bm <;> simp [rename_bone, mapped_name, h]

theorem rename_bone_parent (bm : List (String × String)) (b : Bone) :
    (rename_bone bm b).parent = b.parent := by
  cases h : List.lookup b.name bm <;> simp [rename_bone, h]

theorem rename_bone_transform (bm : List (String × String)) (b : Bone) :
    (rename_bone bm b).transform = b.transform := by
  cases h : List.lookup b.name bm <;> simp [rename_bone, h]

theorem rename_vgroup_name (bm : List (String × String)) (g : VGroup) :
    (rename_vgroup bm g).name = mapped_name bm g.name := by
  cases h : List.lookup g.name bm <;> simp [rename_vgroup, mapped_name, h]

theorem rename_vgroup_weights (bm : List (String × String)) (g : VGroup) :
    (rename_vgroup bm g).weights = g.weights := by
  cases h : List.lookup g.name bm <;> simp [rename_vgroup, h]

theorem weight_at_rename (bm : List (String × String)) (g : VGroup) (v : Nat) :
    weight_at (rename_vgroup bm g) v = weight_at g v := by
  simp [weight_at, rename_vgroup_weights]

theorem forall₂_map_self {α β : Type} (f : α → β) (R : α → β → Prop)
    (l : List α) (h : ∀ a, R a (f a)) : List.Forall₂ R l (l.map f) := by
  induction l with
  | nil => exact List.Forall₂.nil
  | cons a t ih => exact List.Forall₂.cons (h a) ih

theorem map_rename_vgroup_id (bm : List (String × String)) (gs : List VGroup)
    (h : ∀ g ∈ gs, List.lookup g.name bm = none) :
    gs.map (rename_vgroup bm) = gs := by
  induction gs with
  | nil => rfl
  | cons g t ih =>
      have hg : List.lookup g.name bm = none := h g (List.mem_cons_self g t)
      have ht : ∀ g0 ∈ t, List.lookup g0.name bm = none :=
        fun g0 hg0 => h g0 (List.mem_cons_of_mem g hg0)
      simp [rename_vgroup, hg, ih ht]

/-! ### Counterexamples -/

/-- C1 counterexample: with `redistributeWeights` true (the default) and
the unmapped bone `Sleeve` sharing vertex 0 with the mapped bone `Hip`,
the claim requires Sleeve's weight to be redistributed onto the other
resolved influence (post-remap totals `Sleeve 0`, `Hips 2`). The script
leaves both weights where they are: totals are `Sleeve 1`, `Hips 1`. -/
theorem no_redistribution_cex :
    ((run_script avatarObjs costumeObjs1 mapping1 noSettings).toOption.map
      (fun s => s.meshes.map (fun m => m.vertex_groups)))
      = some [[⟨"Sleeve", [(0, 1)]⟩, ⟨"Hips", [(0, 1)]⟩]]
    ∧ ([⟨"Sleeve", [(0, 1)]⟩, ⟨"Hips", [(0, 1)]⟩] : List VGroup)
        ≠ [⟨"Hips", [(0, 2)]⟩]
    ∧ (extract_settings noSettings).redistribute_weights = true := by decide

/-- C2 counterexample: `LegUpper` and `LegLower` both map to `Leg`; the
claim requires a single merged `Leg` influence. The script renames each
vertex group separately, so the post-remap influence list references
`Leg` twice. -/
theorem duplicate_target_cex :
    ((run_script avatarObjs costumeObjs2 mapping2 noSettings).toOption.map
      (fun s => s.meshes.map (fun m => m.vertex_groups.map (fun g => g.name))))
      = some [["Leg", "Leg"]]
    ∧ ¬ List.Nodup ["Leg", "Leg"] := by decide

/-- C3 counterexample: vertex 0 of the cuff mesh is influenced only by the
unmapped `Sleeve`, whose nearest mapped ancestor is `Chest`; the claim
requires post-remap totals `Chest 1`, `Sleeve 0`. The script leaves the
weight on `Sleeve`: totals are `Chest 0`, `Sleeve 1`. -/
theorem orphan_fallback_cex :
    ((run_script [.armature avatarArm3] costumeObjs3 mapping3 noSettings).toOption.map
      (fun s => s.meshes.map (fun m => m.vertex_groups)))
      = some [[⟨"Sleeve", [(0, 1)]⟩]]
    ∧ ([⟨"Sleeve", [(0, 1)]⟩] : List VGroup) ≠ [⟨"Chest", [(0, 1)]⟩]
    ∧ (extract_settings noSettings).redistribute_weights = true := by decide

/-- C4 counterexample: with `adjustBindPoses` true, the mapped costume
bone `CHips → Hips` keeps its authored transform `tf1` instead of
receiving the avatar `Hips` transform `tf0`. -/
theorem bind_pose_cex :
    ((process_armature (build_bone_mapping mapping4)
        (extract_settings settingsBind) costumeArm4).bones.map
      (fun b => (b.name, b.transform))) = [("Hips", tf1)]
    ∧ (extract_settings settingsBind).adjust_bind_poses = true
    ∧ (avatarArm.bones.map (fun b => (b.name, b.transform))) = [("Hips", tf0)]
    ∧ tf1 ≠ tf0 := by decide

/-- C5 counterexample: the mapping entry `A → Ghost` names an avatar bone
absent from the avatar skeleton, yet the script applies it — the costume
bone is renamed to `Ghost` — instead of dropping it, and no diagnostics
exist. -/
theorem dangling_mapping_cex :
    ((process_armature (build_bone_mapping mapping5)
        (extract_settings noSettings) costumeArm5).bones.map (fun b => b.name))
      = ["Ghost"]
    ∧ "Ghost" ∉ avatarArm.bones.map (fun b => b.name) := by decide

/-- C7 counterexample: a costume consisting of a single mesh and no bone
hierarchy at all does not abort the run — the script succeeds, contrary
to the claimed fatal `MissingRequiredSkeleton`. -/
theorem meshes_only_costume_cex :
    (run_script avatarObjs [.mesh bagMesh] [] noSettings).isOk = true
    ∧ find_costume_armature [.mesh bagMesh] = none := by decide

/-- C8 counterexample: the exported dress mesh still carries the vertex
group `Sleeve`, which is not an avatar bone identifier, so the output is
not skinned purely against avatar bone identifiers. -/
theorem unmapped_name_in_output_cex :
    ((run_script avatarObjs costumeObjs1 mapping1 noSettings).toOption.map
      (fun s => s.meshes.map (fun m => m.vertex_groups.map (fun g => g.name))))
      = some [["Sleeve", "Hips"]]
    ∧ "Sleeve" ∉ avatarArm.bones.map (fun b => b.name) := by decide

/-! ### Claim theorems (armature- and mesh-level) -/

theorem total_groups_rename (bm : List (String × String)) (bone : String)
    (v : Nat) (gs : List VGroup) :
    (((gs.map (rename_vgroup bm)).filter (fun g => g.name = bone)).map
      (fun g => weight_at g v)).sum
      = ((gs.filter (fun g => mapped_name bm g.name = bone)).map
          (fun g => weight_at g v)).sum := by
  induction gs with
  | nil => rfl
  | cons g t ih =>
      by_cases h : mapped_name bm g.name = bone
      · simp [List.filter_cons, rename_vgroup_name, h, weight_at_rename, ih]
      · simp [List.filter_cons, rename_vgroup_name, h, ih]

/-- Claim C2 (amended): after the vertex-group rename an influence list
may reference the same avatar bone several times — many-to-one mapped
groups are renamed separately, never merged — but the aggregate weight a
vertex carries toward a given post-remap name equals the sum of the
weights of all original groups whose mapped name is that name. -/
theorem total_weight_by_target (bm : List (String × String))
    (st : RetargetSettings) (avn : String) (m : MeshObj) (bone : String)
    (v : Nat) :
    total_on (process_mesh bm st true avn m) bone v
      = ((m.vertex_groups.filter (fun g => mapped_name bm g.name = bone)).map
          (fun g => weight_at g v)).sum := by
  simp only [total_on, process_mesh, if_true]
  exact total_groups_rename bm bone v m.vertex_groups

/-- Claim C9: the rename loops touch exactly the names that are
costume-side keys of the mapping — every bone and every vertex group is
carried to the output with name `mapped_name` (the original name whenever
it is not a key), and with parent, transform and weights untouched. -/
theorem rename_frame (bm : List (String × String)) (st : RetargetSettings)
    (a : Armature) (avn : String) (m : MeshObj) (flag : Bool) :
    List.Forall₂
      (fun (b b1 : Bone) =>
        b1.name = mapped_name bm b.name ∧ b1.parent = b.parent ∧
          b1.transform = b.transform)
      a.bones (process_armature bm st a).bones
    ∧ List.Forall₂
        (fun (g g1 : VGroup) =>
          (flag = true → g1.name = mapped_name bm g.name) ∧
            (flag = false → g1.name = g.name) ∧ g1.weights = g.weights)
        m.vertex_groups (process_mesh bm st flag avn m).vertex_groups := by
  constructor
  · simp only [process_armature]
    exact forall₂_map_self _ _ _
      (fun b => ⟨rename_bone_name bm b, rename_bone_parent bm b,
        rename_bone_transform bm b⟩)
  · cases flag
    · simp only [process_mesh, Bool.false_eq_true, if_false]
      refine List.forall₂_same.mpr ?_
      intro g _
      exact ⟨fun h => absurd h (by simp), fun _ => rfl, rfl⟩
    · simp only [process_mesh, if_true]
      exact forall₂_map_self _ _ _
        (fun g => ⟨fun _ => rename_vgroup_name bm g,
          fun h => absurd h (by simp), rename_vgroup_weights bm g⟩)

/-- Claim C4 (amended): the armature-processing step never modifies any
costume bone's local bind transform (or parent), whatever the settings —
`adjustBindPoses` is read but has no effect on the result. -/
theorem bind_poses_untouched (bm : List (String × String))
    (st : RetargetSettings) (a : Armature) (b : Bool) :
    (process_armature bm st a).bones.map (fun bo => (bo.transform, bo.parent))
      = a.bones.map (fun bo => (bo.transform, bo.parent))
    ∧ process_armature bm { st with adjust_bind_poses := b } a
        = process_armature bm st a := by
  constructor
  · simp only [process_armature, List.map_map]
    apply List.map_congr_left
    intro bo _
    simp [Function.comp, rename_bone_transform, rename_bone_parent]
  · rfl

/-- Claim C3 (amended): when every influence of a mesh is on an unmapped
costume bone, the script leaves the vertex groups exactly as authored —
the orphaned weights stay under the costume bone names; no
nearest-mapped-ancestor fallback takes place. -/
theorem unmapped_groups_keep_weights (bm : List (String × String))
    (st : RetargetSettings) (flag : Bool) (avn : String) (m : MeshObj)
    (hr : st.redistribute_weights = true)
    (h : ∀ g ∈ m.vertex_groups, List.lookup g.name bm = none) :
    (process_mesh bm st flag avn m).vertex_groups = m.vertex_groups := by
  cases flag
  · simp [process_mesh]
  · simp [process_mesh, map_rename_vgroup_id bm m.vertex_groups h]

/-- Witness for `unmapped_groups_keep_weights` at the cuff fixture. -/
theorem unmapped_groups_keep_weights_witness :
    (process_mesh (build_bone_mapping mapping3) (extract_settings noSettings)
      true "Avatar3" cuffMesh).vertex_groups = cuffMesh.vertex_groups :=
  unmapped_groups_keep_weights _ _ _ _ _ (by decide) (by decide)

/-! ### Pipeline-level lemmas and theorems -/

theorem run_script_ok_inv (ao co : List BObject) (md : List MappingEntry)
    (sf : SettingsFile) (s : FinalScene) (h : run_script ao co md sf = .ok s) :
    find_avatar_armature ao = some s.avatar_armature
    ∧ s.meshes = assemble (build_bone_mapping md) (extract_settings sf)
        (find_costume_armature co).isSome s.avatar_armature.name
        (costume_meshes_of co) := by
  unfold run_script at h
  split at h
  · exact Except.noConfusion h
  · split at h
    · exact Except.noConfusion h
    · rename_i av heq
      split at h
      · exact Except.noConfusion h
      · split at h
        · exact Except.noConfusion h
        · cases h
          exact ⟨heq, rfl⟩

theorem run_script_settings_congr (ao co : List BObject)
    (md : List MappingEntry) (sf sf' : SettingsFile)
    (h : ∀ v, apply_global_scale (extract_settings sf) v
      = apply_global_scale (extract_settings sf') v) :
    run_script ao co md sf = run_script ao co md sf' := by
  have hassem : ∀ (bm : List (String × String)) (flag : Bool) (avn : String)
      (meshes : List MeshObj),
      assemble bm (extract_settings sf) flag avn meshes
        = assemble bm (extract_settings sf') flag avn meshes := by
    intro bm flag avn meshes
    unfold assemble
    apply List.map_congr_left
    intro m0 _
    have hpm : process_mesh bm (extract_settings sf) flag avn m0
        = process_mesh bm (extract_settings sf') flag avn m0 := by
      simp only [process_mesh, h]
    rw [hpm]
  unfold run_script
  split
  · rfl
  · split
    · rfl
    · split
      · rfl
      · split
        · rfl
        · rw [hassem]

theorem apply_global_scale_one (st : RetargetSettings)
    (h : st.global_scale = 1) (v : Vec3) : apply_global_scale st v = v := by
  simp [apply_global_scale, h]

/-- Claim C6: running the pipeline with `globalScale = 1.0` and
`adjustScale = true` produces the same output as running it with
`adjustScale = false` — the scale step is skipped when the scale is 1. -/
theorem scale_one_noop (ao co : List BObject) (md : List MappingEntry)
    (sf : SettingsFile) :
    run_script ao co md { sf with globalScale := some 1, adjustScale := some true }
      = run_script ao co md { sf with globalScale := some 1, adjustScale := some false } :=
  run_script_settings_congr ao co md _ _
    (fun v => by rw [apply_global_scale_one _ rfl, apply_global_scale_one _ rfl])

/-- Claim C5 (amended): mapping entries are applied by pure name lookup,
whether or not the named avatar bone exists in the avatar skeleton —
every costume bone ends up carrying its mapped name — and the
`detectStructuralDifferences` setting has no effect on the run; the
script produces no diagnostics report at all. -/
theorem mapping_applied_unchecked (ao co : List BObject)
    (md : List MappingEntry) (sf : SettingsFile) (b : Option Bool)
    (bm : List (String × String)) (st : RetargetSettings) (a : Armature) :
    run_script ao co md { sf with detectStructuralDifferences := b }
        = run_script ao co md sf
    ∧ (process_armature bm st a).bones.map (fun bo => bo.name)
        = a.bones.map (fun bo => mapped_name bm bo.name) := by
  constructor
  · exact run_script_settings_congr ao co md _ _ (fun v => rfl)
  · simp only [process_armature, List.map_map]
    apply List.map_congr_left
    intro bo _
    simp [Function.comp, rename_bone_name]

/-- Claim C7 (amended): the run aborts fatally exactly when the imported
avatar is empty or contains no armature, the imported costume is empty,
or the costume contains neither an armature nor any mesh; in particular a
costume with meshes but no bone hierarchy does not abort. On an abort no
scene is produced. -/
theorem fatal_iff (ao co : List BObject) (md : List MappingEntry)
    (sf : SettingsFile) :
    (run_script ao co md sf).isOk = true ↔
      (ao.isEmpty = false ∧ (find_avatar_armature ao).isSome = true
        ∧ co.isEmpty = false
        ∧ ((find_costume_armature co).isSome = true
            ∨ (costume_meshes_of co).isEmpty = false)) := by
  by_cases h1 : ao.isEmpty = true
  · simp [run_script, h1, Except.isOk, Except.toBool]
  · rw [Bool.not_eq_true] at h1
    cases hfa : find_avatar_armature ao with
    | none => simp [run_script, h1, hfa, Except.isOk, Except.toBool]
    | some av =>
      by_cases h2 : co.isEmpty = true
      · simp [run_script, h1, h2, hfa, Except.isOk, Except.toBool]
      · rw [Bool.not_eq_true] at h2
        cases hov : find_costume_armature co with
        | some carm =>
          simp [run_script, h1, h2, hfa, hov, Except.isOk, Except.toBool]
        | none =>
          cases hie : (costume_meshes_of co).isEmpty
          · simp [run_script, h1, h2, hfa, hov, hie, Except.isOk,
              Except.toBool]
          · simp [run_script, h1, h2, hfa, hov, hie, Except.isOk,
              Except.toBool]

/-- Claim C1 (amended): the script never modifies any weight — vertex
groups are only renamed — so for every costume mesh and every vertex the
total weight mass after the run equals the total before, exactly (and so
within any tolerance), whether or not `redistributeWeights` is set;
unmapped bones' weights are not redistributed but stay on their original
groups. -/
theorem weights_sum_preserved (ao co : List BObject) (md : List MappingEntry)
    (sf : SettingsFile) (s : FinalScene) (h : run_script ao co md sf = .ok s)
    (hr : (extract_settings sf).redistribute_weights = true) :
    List.Forall₂ (fun (mo m1 : MeshObj) => ∀ v, vertex_total m1 v = vertex_total mo v)
      (costume_meshes_of co) s.meshes := by
  obtain ⟨-, hm⟩ := run_script_ok_inv ao co md sf s h
  rw [hm]
  unfold assemble
  apply forall₂_map_self
  intro m0 v
  show vertex_total (process_mesh (build_bone_mapping md) (extract_settings sf)
    (find_costume_armature co).isSome s.avatar_armature.name m0) v = vertex_total m0 v
  simp only [vertex_total, process_mesh]
  cases (find_costume_armature co).isSome
  · rfl
  · simp only [if_true, List.map_map]
    congr 1
    apply List.map_congr_left
    intro g _
    exact weight_at_rename _ g v

/-- Witness for `weights_sum_preserved` at the dress fixture. -/
theorem weights_sum_preserved_witness :
    List.Forall₂ (fun (mo m1 : MeshObj) => ∀ v, vertex_total m1 v = vertex_total mo v)
      (costume_meshes_of costumeObjs1) scene1.meshes :=
  weights_sum_preserved avatarObjs costumeObjs1 mapping1 noSettings scene1
    rfl (by decide)

/-- Claim C8 (amended): on success the output is the avatar armature,
untouched, plus the costume meshes, each parented to the avatar armature;
when a costume armature exists every vertex-group name is the mapped name
(unmapped groups keep their costume names); the costume armature itself
is absent from the output. -/
theorem assembled_scene (ao co : List BObject) (md : List MappingEntry)
    (sf : SettingsFile) (s : FinalScene) (h : run_script ao co md sf = .ok s)
    (hc : (find_costume_armature co).isSome = true) :
    find_avatar_armature ao = some s.avatar_armature
    ∧ (∀ m1 ∈ s.meshes, m1.parent = some s.avatar_armature.name)
    ∧ s.meshes.map (fun m1 => m1.vertex_groups.map (fun g => g.name))
        = (costume_meshes_of co).map
            (fun mo => mo.vertex_groups.map
              (fun g => mapped_name (build_bone_mapping md) g.name)) := by
  obtain ⟨hav, hm⟩ := run_script_ok_inv ao co md sf s h
  refine ⟨hav, ?_, ?_⟩
  · intro m1 hmem
    rw [hm] at hmem
    simp only [assemble, List.mem_map] at hmem
    obtain ⟨m0, -, rfl⟩ := hmem
    rfl
  · rw [hm, hc]
    unfold assemble
    rw [List.map_map]
    apply List.map_congr_left
    intro m0 _
    simp only [Function.comp, process_mesh, if_true, List.map_map]
    apply List.map_congr_left
    intro g _
    exact rename_vgroup_name _ g

/-- Witness for `assembled_scene` at the dress fixture. -/
theorem assembled_scene_witness :
    find_avatar_armature avatarObjs = some scene1.avatar_armature
    ∧ (∀ m1 ∈ scene1.meshes, m1.parent = some scene1.avatar_armature.name)
    ∧ scene1.meshes.map (fun m1 => m1.vertex_groups.map (fun g => g.name))
        = (costume_meshes_of costumeObjs1).map
            (fun mo => mo.vertex_groups.map
              (fun g => mapped_name (build_bone_mapping mapping1) g.name)) :=
  assembled_scene avatarObjs costumeObjs1 mapping1 noSettings scene1 rfl
    (by decide)

/-- Claim C10: whatever the settings, every exported costume mesh has its
location reset to the origin, discarding any authored object-level
translation. -/
theorem mesh_locations_zeroed (ao co : List BObject) (md : List MappingEntry)
    (sf : SettingsFile) (s : FinalScene)
    (h : run_script ao co md sf = .ok s) :
    ∀ m1 ∈ s.meshes, m1.location = ⟨0, 0, 0⟩ := by
  obtain ⟨-, hm⟩ := run_script_ok_inv ao co md sf s h
  intro m1 hmem
  rw [hm] at hmem
  simp only [assemble, List.mem_map] at hmem
  obtain ⟨m0, -, rfl⟩ := hmem
  rfl

/-- Witness for `mesh_locations_zeroed`: the exported dress mesh sits at
the origin. -/
theorem mesh_locations_zeroed_witness : dressOut.location = ⟨0, 0, 0⟩ :=
  mesh_locations_zeroed avatarObjs costumeObjs1 mapping1 noSettings scene1
    rfl dressOut (by decide)

end AvatarCostume
